import Mathlib

/-!
A verification development for the `mediawiki` Go package.

The package is a thin client of the MediaWiki web API (`src/mediawiki.go`).
This file embeds its functions as Lean definitions and proves properties of
them.

Modelling conventions.

* A Go `error` is an `Option Error` (`none` is the nil error); the text of a
  message is kept without the values formatted into it by `%v`.
* A Go slice that may be `nil` is an `Option (List _)` (`none` is nil).
* A function that may panic returns an `Outcome`.
* The network is an environment `Env`: which URLs `http.NewRequest` accepts,
  and what the HTTP client answers to a request, given the requests handed to
  it before. Every function threads the list of requests handed to the client.
* `encoding/json` is library code: the body of a response is given by what
  `Decode` yields on it for each target type the package decodes into.
-/

namespace Mediawiki

/-! ## Dynamic JSON values (`interface{}` after `encoding/json`) -/

/-- The Go value behind an `interface{}` produced by `encoding/json`. -/
inductive Value where
  | null
  | bool (b : Bool)
  | number (lit : String)
  | str (s : String)
  | arr (xs : List Value)
  | obj (kvs : List (String × Value))

/-- A Go `map[string]interface{}`; a key is looked up by its first entry. -/
abbrev JMap := List (String × Value)

/-- The expression `m[k]`: the stored value, or the nil interface when absent. -/
def mapIndex (m : JMap) (k : String) : Value :=
  match m.lookup k with
  | some v => v
  | none => Value.null

/-- The comma-ok type assertion `v.(string)`. -/
def assertString : Value → Option String
  | Value.str s => some s
  | _ => none

/-- The comma-ok type assertion `v.(map[string]interface{})`. -/
def assertMap : Value → Option JMap
  | Value.obj kvs => some kvs
  | _ => none

/-- A Go error value, by its message. -/
abbrev Error := String

/-- The result of running code that may panic. -/
inductive Outcome (α : Type) where
  | ret (a : α)
  | panic
  deriving DecidableEq, Repr

/-! ## Cookies (`net/http`) -/

/-- The fields of `http.Cookie` that `Cookie.String` serialises, without
`Domain`, `Expires` and `SameSite` (taken as unset). -/
structure Cookie where
  Name : String
  Value : String
  Path : String
  MaxAge : Int
  Secure : Bool
  HttpOnly : Bool
  deriving DecidableEq, Repr

/-- The token characters of RFC 7230 (`httpguts.IsTokenRune`). -/
def isTokenRune (c : Char) : Bool :=
  let n := c.toNat
  n == 33 || (35 ≤ n && n ≤ 39) || n == 42 || n == 43 || n == 45 || n == 46 ||
  (48 ≤ n && n ≤ 57) || (65 ≤ n && n ≤ 90) || (94 ≤ n && n ≤ 122) || n == 124 || n == 126

/-- The check `isCookieNameValid`: non-empty and made of token characters. -/
def isCookieNameValid (raw : String) : Bool :=
  raw.data != [] && raw.data.all isTokenRune

/-- The byte test `validCookieValueByte`. -/
def validCookieValueByte (c : Char) : Bool :=
  let n := c.toNat
  32 ≤ n && n < 127 && n != 34 && n != 59 && n != 92

/-- The byte test `validCookiePathByte`. -/
def validCookiePathByte (c : Char) : Bool :=
  let n := c.toNat
  32 ≤ n && n < 127 && n != 59

/-- The function `sanitizeCookieValue`: invalid bytes are dropped, and a value
holding a space or a comma is put between double quotes. -/
def sanitizeCookieValue (v : String) : String :=
  let w := String.mk (v.data.filter validCookieValueByte)
  if w.data = [] then w
  else if w.data.any (fun c => c.toNat == 32 || c.toNat == 44) then "\"" ++ w ++ "\""
  else w

/-- The function `sanitizeCookiePath`: invalid bytes are dropped. -/
def sanitizeCookiePath (v : String) : String :=
  String.mk (v.data.filter validCookiePathByte)

/-- The method `(*http.Cookie).String` of the Go standard library (`net/http`),
which `joinCookies` calls: `name=value`, followed by the attributes that are
set, each introduced by `"; "`; the empty string when the name is not valid. -/
def Cookie.String (c : Cookie) : String :=
  if !isCookieNameValid c.Name then ""
  else
    c.Name ++ "=" ++ sanitizeCookieValue c.Value
      ++ (if c.Path.data != [] then "; Path=" ++ sanitizeCookiePath c.Path else "")
      ++ (if c.MaxAge > 0 then "; Max-Age=" ++ toString c.MaxAge
          else if c.MaxAge < 0 then "; Max-Age=0" else "")
      ++ (if c.HttpOnly then "; HttpOnly" else "")
      ++ (if c.Secure then "; Secure" else "")

/-- Ranging over a slice that may be nil: nil has no elements. -/
def sliceOf {α : Type} : Option (List α) → List α
  | some xs => xs
  | none => []

/-- The function `joinCookies` (mediawiki.go, lines 399-405). -/
def joinCookies (cookies : List Cookie) : String :=
  let cookieStrings := cookies.foldl (fun acc c => acc ++ [c.String]) []
  String.intercalate ";" cookieStrings

/-! ## Requests, responses and the network -/

/-- The body handed to `http.NewRequest`. -/
inductive ReqBody where
  | empty
  | raw (s : String)
  | form (v : List (String × String))
  deriving DecidableEq, Repr

/-- An outgoing HTTP request. -/
structure Request where
  Method : String
  URL : String
  Header : List (String × String)
  Body : ReqBody
  deriving DecidableEq, Repr

/-- One entry of `parse.sections`. -/
structure Section where
  Level : String
  Line : String
  Index : String
  deriving DecidableEq, Repr

/-- One entry of the `purge` array. -/
structure PurgeItem where
  Ns : Int
  Purged : String
  Title : String
  deriving DecidableEq, Repr

/-- The struct `Purge` decodes into (lines 235-242). -/
structure PurgeData where
  Purge : List PurgeItem
  Error : Option JMap

/-- The body of a response, as `json.NewDecoder(resp.Body).Decode(&data)` sees
it for each target type of the package; `none` is a decoding error. -/
structure Body where
  asMap : Option JMap
  asSections : Option (List Section)
  asPurge : Option PurgeData

/-- An HTTP response: status code, the cookies of `resp.Cookies()`, body. -/
structure Response where
  StatusCode : Nat
  Cookies : List Cookie
  Body : Body

/-- The network: `validURL u` says that `http.NewRequest` accepts `u`;
`roundTrip log req` is what the client returns for `req` after the requests
of `log`. -/
structure Env where
  validURL : String → Bool
  roundTrip : List Request → Request → Except Error Response

/-- The call `http.NewRequest(method, u, body)` with its header filled in. -/
def newRequest (env : Env) (method u : String) (header : List (String × String))
    (body : ReqBody) : Except Error Request :=
  if env.validURL u then Except.ok ⟨method, u, header, body⟩
  else Except.error "net/url: invalid URL"

/-- A decoding error of `encoding/json`. -/
def decodeError : Error := "json: cannot decode"

/-! ## GetToken (lines 108-163) -/

/-- Lines 110-119 of `GetToken`: the token request; the `Cookie` header is
set only when the cookies are not nil. -/
def tokenRequest (env : Env) (mwURI tokenType : String) (cookies : Option (List Cookie)) :
    Except Error Request :=
  let u := mwURI ++ "/api.php?action=query&format=json&meta=tokens&type=" ++ tokenType
  let header := match cookies with
    | some cs => [("Cookie", joinCookies cs)]
    | none => []
  newRequest env "POST" u header ReqBody.empty

/-- The function `GetToken`: the token, the cookies of the response and the
error, with the requests handed to the client. -/
def GetToken (env : Env) (log : List Request) (mwURI tokenType : String)
    (cookies : Option (List Cookie)) :
    Outcome (String × Option (List Cookie) × Option Error) × List Request :=
  match tokenRequest env mwURI tokenType cookies with
  | Except.error err => (Outcome.ret ("", none, some err), log)
  | Except.ok req =>
    match env.roundTrip log req with
    | Except.error err => (Outcome.ret ("", none, some err), log ++ [req])
    | Except.ok resp =>
      match resp.Body.asMap with
      | none => (Outcome.ret ("", none, some decodeError), log ++ [req])
      | some data =>
        match assertMap (mapIndex data "query") with
        | none => (Outcome.ret ("", none, some "GetToken: query type error"), log ++ [req])
        | some query =>
          match assertMap (mapIndex query "tokens") with
          | none => (Outcome.ret ("", none, some "GetToken: tokens type error"), log ++ [req])
          | some tokens =>
            let field : Option String :=
              if tokenType = "login" then some "logintoken"
              else if tokenType = "csrf" then some "csrftoken"
              else if tokenType = "userrights" then some "userrightstoken"
              else none
            match field with
            | none =>
              (Outcome.ret ("", none, some "GetToken: token type is not recognized"),
                log ++ [req])
            | some f =>
              match assertString (mapIndex tokens f) with
              | none => (Outcome.panic, log ++ [req])
              | some token =>
                if token.length = 0 then
                  (Outcome.ret ("", none, some "GetToken: zero length token"), log ++ [req])
                else (Outcome.ret (token, some resp.Cookies, none), log ++ [req])

/-! ## Login (lines 165-218) -/

/-- Lines 211-217 of `Login`: the reading of `login.result`, once the response
has passed the top-level error check. -/
def loginResult (data : JMap) (resp : Response) (log : List Request) :
    Outcome (Bool × Option (List Cookie) × Option Error) × List Request :=
  match assertMap (mapIndex data "login") with
  | none => (Outcome.panic, log)
  | some loginData =>
    match assertString (mapIndex loginData "result") with
    | some s =>
      if s != "Success" then (Outcome.ret (false, none, some "Login: error response"), log)
      else (Outcome.ret (true, some resp.Cookies, none), log)
    | none => (Outcome.ret (true, some resp.Cookies, none), log)

/-- Lines 177-191 of `Login`: the credential request. -/
def loginRequest (env : Env) (mwURI name pass token : String)
    (cookies : Option (List Cookie)) : Except Error Request :=
  let u := mwURI ++ "/api.php"
  let v := [("action", "login"), ("format", "json"), ("lgname", name),
    ("lgpassword", pass), ("lgtoken", token)]
  let header := [("Cookie", joinCookies (sliceOf cookies)),
    ("Content-Type", "application/x-www-form-urlencoded")]
  newRequest env "POST" u header (ReqBody.form v)

/-- The function `Login`: success flag, cookies and error, with the requests
handed to the client. -/
def Login (env : Env) (log : List Request) (mwURI name pass : String) :
    Outcome (Bool × Option (List Cookie) × Option Error) × List Request :=
  match GetToken env log mwURI "login" none with
  | (Outcome.panic, log1) => (Outcome.panic, log1)
  | (Outcome.ret (_, _, some err), log1) => (Outcome.ret (false, none, some err), log1)
  | (Outcome.ret (token, cookies, none), log1) =>
    match loginRequest env mwURI name pass token cookies with
    | Except.error err => (Outcome.ret (false, none, some err), log1)
    | Except.ok req =>
      match env.roundTrip log1 req with
      | Except.error err => (Outcome.ret (false, none, some err), log1 ++ [req])
      | Except.ok resp =>
        match resp.Body.asMap with
        | none => (Outcome.ret (false, none, some decodeError), log1 ++ [req])
        | some data =>
          match assertString (mapIndex data "error") with
          | some s =>
            if s.length > 0 then
              (Outcome.ret (false, none, some "Login: error response"), log1 ++ [req])
            else loginResult data resp (log1 ++ [req])
          | none => loginResult data resp (log1 ++ [req])

/-! ## UpdatePage (lines 12-106) -/

/-- Lines 33-39: the scan of the section list for the section reference. -/
def sectionIndexOf (sections : List Section) (sectionTitle : String) : String :=
  sections.foldl
    (fun sectionIndex sec =>
      if sec.Level = "2" ∧ sec.Line = sectionTitle then sec.Index else sectionIndex)
    "new"

/-- Lines 41-44: the heading is put before the markup unless the section
reference is `"new"`. -/
def headedMarkup (sectionIndex sectionTitle markup : String) : String :=
  if sectionIndex ≠ "new" then "== " ++ sectionTitle ++ " ==\n\n" ++ markup else markup

/-- The method `url.Values.Set` on single-valued form data. -/
def valuesSet (v : List (String × String)) (key value : String) : List (String × String) :=
  v.filter (fun p => p.1 != key) ++ [(key, value)]

/-- The method `url.Values.Get`: the value of a key, `""` when absent. -/
def valuesGet (v : List (String × String)) (key : String) : String :=
  match v.lookup key with
  | some x => x
  | none => ""

/-- Lines 60-68: the form data of the edit request. -/
def editValues (title sectionIndex sectionTitle markup contentModel csrfToken : String) :
    List (String × String) :=
  let v : List (String × String) := []
  let v := valuesSet v "bot" "1"
  let v := valuesSet v "title" title
  let v := valuesSet v "section" sectionIndex
  let v := valuesSet v "sectiontitle" sectionTitle
  let v := valuesSet v "text" markup
  let v := valuesSet v "contentmodel" contentModel
  valuesSet v "token" csrfToken

/-- Lines 82-105: the reading of the response to the edit request. -/
def editResult (resp : Response) : Bool × Option Error :=
  if resp.StatusCode > 200 then (false, some "bad HTTP status")
  else
    match resp.Body.asMap with
    | none => (false, some decodeError)
    | some data =>
      let failed : Bool :=
        match assertString (mapIndex data "error") with
        | some s => decide (s.length > 0)
        | none => false
      if failed then (false, some "UpdatePage: error response")
      else
        match assertMap (mapIndex data "edit") with
        | none => (false, some "UpdatePage: unexpected response")
        | some editData =>
          match assertString (mapIndex editData "result") with
          | some s =>
            if s ≠ "Success" then (false, some "UpdatePage: error response")
            else (true, none)
          | none => (true, none)

/-- The URL of the edit request (line 59). -/
def editURL (mwURI : String) : String := mwURI ++ "/api.php?action=edit&format=json"

/-- Lines 59-74: the edit request. -/
def editRequest (mwURI title markup contentModel sectionTitle sectionIndex csrfToken : String)
    (cookies : Option (List Cookie)) : Request :=
  { Method := "POST"
    URL := editURL mwURI
    Header := [("Cookie", joinCookies (sliceOf cookies)),
      ("Content-Type", "application/x-www-form-urlencoded")]
    Body := ReqBody.form
      (editValues title sectionIndex sectionTitle markup contentModel csrfToken) }

/-- Lines 14-31 of `UpdatePage`: the section list of the page is fetched and
decoded. -/
def fetchSections (env : Env) (log : List Request) (mwURI title : String) :
    Except Error (List Section) × List Request :=
  let u := mwURI ++ "/api.php?action=parse&format=json&page=" ++ title ++ "&prop=sections"
  match newRequest env "GET" u [] ReqBody.empty with
  | Except.error err => (Except.error err, log)
  | Except.ok req =>
    match env.roundTrip log req with
    | Except.error err => (Except.error err, log ++ [req])
    | Except.ok resp =>
      match resp.Body.asSections with
      | none => (Except.error decodeError, log ++ [req])
      | some sections => (Except.ok sections, log ++ [req])

/-- Lines 56-105 of `UpdatePage`: what follows a successful login with the
cookies `cookies`. The error of `GetToken` is assigned and never read: the
next assignment to `err` is that of `http.NewRequest`. -/
def submitEdit (env : Env) (log : List Request)
    (mwURI title markup contentModel sectionTitle sectionIndex : String)
    (cookies : Option (List Cookie)) : Outcome (Bool × Option Error) × List Request :=
  match GetToken env log mwURI "csrf" cookies with
  | (Outcome.panic, log1) => (Outcome.panic, log1)
  | (Outcome.ret (csrfToken, _, _), log1) =>
    if env.validURL (editURL mwURI) then
      let req := editRequest mwURI title markup contentModel sectionTitle sectionIndex
        csrfToken cookies
      match env.roundTrip log1 req with
      | Except.error err => (Outcome.ret (false, some err), log1 ++ [req])
      | Except.ok resp => (Outcome.ret (editResult resp), log1 ++ [req])
    else (Outcome.ret (false, some "net/url: invalid URL"), log1)

/-- The function `UpdatePage`: success flag and error, with the requests
handed to the client. -/
def UpdatePage (env : Env) (log : List Request)
    (mwURI title markup contentModel loginName loginPass sectionTitle : String) :
    Outcome (Bool × Option Error) × List Request :=
  match fetchSections env log mwURI title with
  | (Except.error err, log0) => (Outcome.ret (false, some err), log0)
  | (Except.ok sections, log0) =>
    let sectionIndex := sectionIndexOf sections sectionTitle
    let markup := headedMarkup sectionIndex sectionTitle markup
    match Login env log0 mwURI loginName loginPass with
    | (Outcome.panic, log1) => (Outcome.panic, log1)
    | (Outcome.ret (_, _, some err), log1) => (Outcome.ret (false, some err), log1)
    | (Outcome.ret (false, _, none), log1) => (Outcome.ret (false, some "login failed"), log1)
    | (Outcome.ret (true, cookies, none), log1) =>
      submitEdit env log1 mwURI title markup contentModel sectionTitle sectionIndex cookies

/-! ## Purge (lines 220-254) -/

/-- Lines 222-227 of `Purge`: the request. -/
def purgeRequest (env : Env) (mwURI : String) (pageTitles : List String) :
    Except Error Request :=
  let u := mwURI ++ "/api.php?action=purge&format=json&titles="
    ++ String.intercalate "|" pageTitles
  newRequest env "POST" u [] ReqBody.empty

/-- The function `Purge`: its error, with the requests handed to the client. -/
def Purge (env : Env) (log : List Request) (mwURI : String) (pageTitles : List String) :
    Option Error × List Request :=
  match purgeRequest env mwURI pageTitles with
  | Except.error err => (some err, log)
  | Except.ok req =>
    match env.roundTrip log req with
    | Except.error err => (some err, log ++ [req])
    | Except.ok resp =>
      match resp.Body.asPurge with
      | none => (some decodeError, log ++ [req])
      | some data =>
        if data.Purge.length ≠ pageTitles.length then
          (some "probably, there is an error", log ++ [req])
        else (none, log ++ [req])

/-! ## Get and Post (lines 346-397) -/

/-- Line 348 of `Get` and the request that `http.Get` builds from it. -/
def getRequest (env : Env) (mwURI params : String) : Except Error Request :=
  newRequest env "GET" (mwURI ++ "/api.php?" ++ params) [] ReqBody.empty

/-- Lines 370-378 of `Post`: the request. -/
def postRequest (env : Env) (mwURI body : String) (loginCookies : Option (List Cookie)) :
    Except Error Request :=
  let u := mwURI ++ "/api.php"
  let header := [("Cookie", joinCookies (sliceOf loginCookies)),
    ("Content-Type", "application/x-www-form-urlencoded")]
  newRequest env "POST" u header (ReqBody.raw body)

/-- The function `Get`: the decoded mapping (`none` is the nil map) and the
error, with the requests handed to the client. -/
def Get (env : Env) (log : List Request) (mwURI params : String) :
    (Option JMap × Option Error) × List Request :=
  match getRequest env mwURI params with
  | Except.error err => ((none, some err), log)
  | Except.ok req =>
    match env.roundTrip log req with
    | Except.error err => ((none, some err), log ++ [req])
    | Except.ok resp =>
      if resp.StatusCode > 200 then ((none, some "bad HTTP status"), log ++ [req])
      else
        match resp.Body.asMap with
        | none => ((none, some "Get: json: cannot decode"), log ++ [req])
        | some data => ((some data, none), log ++ [req])

/-- The function `Post`: the decoded mapping (`none` is the nil map) and the
error, with the requests handed to the client. -/
def Post (env : Env) (log : List Request) (mwURI body : String)
    (loginCookies : Option (List Cookie)) : (Option JMap × Option Error) × List Request :=
  match postRequest env mwURI body loginCookies with
  | Except.error err => ((none, some err), log)
  | Except.ok req =>
    match env.roundTrip log req with
    | Except.error err => ((none, some err), log ++ [req])
    | Except.ok resp =>
      if resp.StatusCode > 200 then ((none, some "bad HTTP status"), log ++ [req])
      else
        match resp.Body.asMap with
        | none => ((none, some "Post: json: cannot decode"), log ++ [req])
        | some data => ((some data, none), log ++ [req])

/-! ## Concrete networks -/

/-- A network that accepts every URL and answers the n-th request handed to it
with the n-th entry of a script. -/
def scripted (script : List (Except Error Response)) : Env where
  validURL := fun _ => true
  roundTrip := fun log _ =>
    match script.get? log.length with
    | some r => r
    | none => Except.error "connection refused"

/-- A body that is the JSON object `m`. -/
def jsonBody (m : JMap) : Body := ⟨some m, none, none⟩

/-- A body whose `parse.sections` decodes to `s`. -/
def sectionsBody (s : List Section) : Body := ⟨none, some s, none⟩

/-- A session cookie as `resp.Cookies()` yields it: with `Path` and `HttpOnly`. -/
def sessionCookie : Cookie := ⟨"sid", "abc", "/", 0, false, true⟩

/-- The answer to a token request: `{"query":{"tokens":{field: token}}}`. -/
def tokenResponse (field token : String) : Response :=
  ⟨200, [sessionCookie],
    jsonBody [("query", Value.obj [("tokens", Value.obj [(field, Value.str token)])])]⟩

/-- The answer `{"login":{"result":"Success"}}` to the credential request. -/
def loginSuccess : Response :=
  ⟨200, [sessionCookie], jsonBody [("login", Value.obj [("result", Value.str "Success")])]⟩

/-- The answer `{"edit":{"result":"Success"}}` to the edit request. -/
def editSuccess : Response :=
  ⟨200, [], jsonBody [("edit", Value.obj [("result", Value.str "Success")])]⟩

/-- A full run of `UpdatePage`: section list, login token, login, CSRF token,
edit. -/
def updateScript (sections : List Section) (csrf edit : Response) :
    List (Except Error Response) :=
  [Except.ok ⟨200, [], sectionsBody sections⟩,
   Except.ok (tokenResponse "logintoken" "lt"),
   Except.ok loginSuccess,
   Except.ok csrf,
   Except.ok edit]

/-- The page has the section "Publications" at index "3". -/
def envPresent : Env :=
  scripted (updateScript [⟨"1", "Publications", "1"⟩, ⟨"2", "Publications", "3"⟩,
    ⟨"2", "Notes", "4"⟩] (tokenResponse "csrftoken" "ct") editSuccess)

/-- The sections of the page in `envPresent`. -/
def presentSections : List Section :=
  [⟨"1", "Publications", "1"⟩, ⟨"2", "Publications", "3"⟩, ⟨"2", "Notes", "4"⟩]

/-- The edit request of the run in `envPresent`. -/
def presentEdit : Request :=
  editRequest "http://w" "User:Ihar" "== Publications ==\n\nhello" "wikitext" "Publications"
    "3" "ct" (some [sessionCookie])

/-- The page has one section "Publications", of level 2, whose index string
is "new". -/
def envSentinel : Env :=
  scripted (updateScript [⟨"2", "Publications", "new"⟩] (tokenResponse "csrftoken" "ct")
    editSuccess)

/-- The edit request of the run in `envSentinel`. -/
def sentinelEdit : Request :=
  editRequest "http://w" "User:Ihar" "hello" "wikitext" "Publications" "new" "ct"
    (some [sessionCookie])

/-- The edit request is answered `{"edit":{}}`: an `edit` object without a
`result` field. -/
def bareEditResponse : Response := ⟨200, [], jsonBody [("edit", Value.obj [])]⟩

/-- A full run in which the edit request is answered by `bareEditResponse`. -/
def envBareEdit : Env :=
  scripted (updateScript presentSections (tokenResponse "csrftoken" "ct") bareEditResponse)

/-- A full run in which the CSRF token request is answered `{}`, so that
`GetToken` returns an error, and the edit request is answered with success. -/
def envNoCsrf : Env :=
  scripted (updateScript presentSections ⟨200, [], jsonBody []⟩ editSuccess)

/-- The edit request of the run in `envNoCsrf`: its token is empty. -/
def tokenlessEdit : Request :=
  editRequest "http://w" "User:Ihar" "== Publications ==\n\nhello" "wikitext" "Publications"
    "3" "" (some [sessionCookie])

/-- A full run in which the edit request is answered with status 201. -/
def envCreated : Env :=
  scripted (updateScript presentSections (tokenResponse "csrftoken" "ct")
    ⟨201, [], jsonBody [("edit", Value.obj [("result", Value.str "Success")])]⟩)

/-- One request, answered with status `status` and the JSON object
`{"batchcomplete":""}`. -/
def envStatus (status : Nat) : Env :=
  scripted [Except.ok ⟨status, [], jsonBody [("batchcomplete", Value.str "")]⟩]

/-- The credential request is answered `{"login":{}}`: a `login` object
without a `result` field. -/
def bareLoginResponse : Response := ⟨200, [sessionCookie], jsonBody [("login", Value.obj [])]⟩

/-- A login in which the credential request is answered by `bareLoginResponse`. -/
def envLoginBare : Env :=
  scripted [Except.ok (tokenResponse "logintoken" "lt"), Except.ok bareLoginResponse]

/-- A login in which the credential request is answered
`{"login":{"result":"Failed"}}`. -/
def envLoginRejected : Env :=
  scripted [Except.ok (tokenResponse "logintoken" "lt"),
    Except.ok ⟨200, [sessionCookie], jsonBody [("login", Value.obj [("result", Value.str "Failed")])]⟩]

/-- A login in which the credential request is answered `{}`: a JSON object
with no `login` object. -/
def envLoginAbsent : Env :=
  scripted [Except.ok (tokenResponse "logintoken" "lt"),
    Except.ok ⟨200, [sessionCookie], jsonBody []⟩]

/-- The credential request of the logins above. -/
def credentialRequest : Request :=
  { Method := "POST"
    URL := "http://w/api.php"
    Header := [("Cookie", "sid=abc; Path=/; HttpOnly"),
      ("Content-Type", "application/x-www-form-urlencoded")]
    Body := ReqBody.form [("action", "login"), ("format", "json"), ("lgname", "bot"),
      ("lgpassword", "pw"), ("lgtoken", "lt")] }

/-- The token request is answered `{"query":{"tokens":{}}}`: the token field
is missing. -/
def envTokenAbsent : Env :=
  scripted [Except.ok ⟨200, [], jsonBody [("query", Value.obj [("tokens", Value.obj [])])]⟩]

/-- The purge request is answered with one purged page and an `error` object. -/
def envPurge : Env :=
  scripted [Except.ok ⟨200, [], ⟨none, none,
    some ⟨[⟨0, "", "Publications"⟩], some [("code", Value.str "readonly")]⟩⟩⟩]

/-- A cookie with the `Secure` attribute. -/
def secureCookie : Cookie := ⟨"tok", "xyz", "", 0, true, false⟩

/-! ## The section scan -/

/-- The scan returns the index of the last entry that matches, and its
starting value when none does. -/
theorem foldl_scan (sectionTitle : String) (sections : List Section) (init : String) :
    sections.foldl
      (fun sectionIndex sec =>
        if sec.Level = "2" ∧ sec.Line = sectionTitle then sec.Index else sectionIndex) init
    = match (sections.filter (fun s => s.Level = "2" ∧ s.Line = sectionTitle)).getLast? with
      | none => init
      | some s => s.Index := by
  induction sections using List.reverseRecOn generalizing init with
  | nil => simp
  | append_singleton l a ih =>
    rw [List.foldl_append, List.filter_append]
    by_cases h : a.Level = "2" ∧ a.Line = sectionTitle
    · simp [h]
    · simp [h, ih]

/-- No entry matches: the section reference is the sentinel. -/
theorem sectionIndexOf_none (sections : List Section) (sectionTitle : String)
    (h : ∀ s ∈ sections, ¬ (s.Level = "2" ∧ s.Line = sectionTitle)) :
    sectionIndexOf sections sectionTitle = "new" := by
  unfold sectionIndexOf
  rw [foldl_scan]
  have hf : sections.filter (fun s => s.Level = "2" ∧ s.Line = sectionTitle) = [] := by
    rw [List.filter_eq_nil_iff]
    intro a ha
    simpa using h a ha
  rw [hf]
  rfl

/-- The section reference is the index of the last entry that matches. -/
theorem sectionIndexOf_last (before after : List Section) (s : Section) (sectionTitle : String)
    (hl : s.Level = "2") (ht : s.Line = sectionTitle)
    (h : ∀ x ∈ after, ¬ (x.Level = "2" ∧ x.Line = sectionTitle)) :
    sectionIndexOf (before ++ s :: after) sectionTitle = s.Index := by
  unfold sectionIndexOf
  rw [List.foldl_append, List.foldl_cons]
  have := sectionIndexOf_none after sectionTitle h
  rw [foldl_scan]
  have hf : after.filter (fun s => s.Level = "2" ∧ s.Line = sectionTitle) = [] := by
    rw [List.filter_eq_nil_iff]
    intro a ha
    simpa using h a ha
  rw [hf]
  simp [hl, ht]

/-! ## The requests of a run -/

/-- Appending to a common start is injective. -/
theorem string_append_left_cancel (s a b : String) (h : s ++ a = s ++ b) : a = b := by
  have h2 := congrArg String.data h
  simp only [String.data_append] at h2
  exact String.ext (List.append_cancel_left h2)

/-- The URL of the credential request is not that of the edit request. -/
theorem edit_ne_login (mwURI : String) : mwURI ++ "/api.php" ≠ editURL mwURI := by
  intro h
  have := string_append_left_cancel _ _ _ h
  revert this
  decide

/-- The URL of a token request is not that of the edit request. -/
theorem edit_ne_token (mwURI tokenType : String) :
    mwURI ++ "/api.php?action=query&format=json&meta=tokens&type=" ++ tokenType
      ≠ editURL mwURI := by
  intro h
  unfold editURL at h
  rw [String.append_assoc] at h
  have h2 := congrArg String.data (string_append_left_cancel _ _ _ h)
  simp only [String.data_append] at h2
  have h3 := congrArg (fun l => l.get? 16) h2
  revert h3
  simp

/-- The URL of the section request is not that of the edit request. -/
theorem edit_ne_parse (mwURI title : String) :
    mwURI ++ "/api.php?action=parse&format=json&page=" ++ title ++ "&prop=sections"
      ≠ editURL mwURI := by
  intro h
  unfold editURL at h
  rw [String.append_assoc, String.append_assoc] at h
  have h2 := congrArg String.data (string_append_left_cancel _ _ _ h)
  simp only [String.data_append] at h2
  have h3 := congrArg (fun l => l.get? 16) h2
  revert h3
  simp

/-- The requests of `GetToken`: at most one, a token request. -/
theorem GetToken_log (env : Env) (log : List Request) (mwURI tokenType : String)
    (cookies : Option (List Cookie)) (r : Request)
    (hr : r ∈ (GetToken env log mwURI tokenType cookies).2) :
    r ∈ log ∨
      r.URL = mwURI ++ "/api.php?action=query&format=json&meta=tokens&type=" ++ tokenType := by
  revert hr
  unfold GetToken tokenRequest newRequest
  dsimp only
  by_cases hv : env.validURL
      (mwURI ++ "/api.php?action=query&format=json&meta=tokens&type=" ++ tokenType) = true
  · simp only [hv, if_true]
    intro hr
    have key : ∀ (x : Outcome (String × Option (List Cookie) × Option Error)) (q : Request),
        q.URL = mwURI ++ "/api.php?action=query&format=json&meta=tokens&type=" ++ tokenType →
        r ∈ (x, log ++ [q]).2 →
        r ∈ log ∨ r.URL
          = mwURI ++ "/api.php?action=query&format=json&meta=tokens&type=" ++ tokenType := by
      intro x q hq hm
      rcases List.mem_append.1 hm with h | h
      · exact Or.inl h
      · rw [List.mem_singleton.1 h]; exact Or.inr hq
    repeat' split at hr
    all_goals exact key _ _ rfl hr
  · simp only [hv]
    intro hr
    exact Or.inl hr

/-- Reading `login.result` hands no request to the client. -/
theorem loginResult_log (data : JMap) (resp : Response) (log : List Request) :
    (loginResult data resp log).2 = log := by
  unfold loginResult
  repeat' split
  all_goals rfl

/-- The requests of `Login`: none of them is an edit request. -/
theorem Login_log (env : Env) (log : List Request) (mwURI name pass : String) (r : Request)
    (hr : r ∈ (Login env log mwURI name pass).2) :
    r ∈ log ∨ r.URL ≠ editURL mwURI := by
  revert hr
  unfold Login
  have hg := GetToken_log env log mwURI "login" none r
  generalize GetToken env log mwURI "login" none = g at hg ⊢
  have hg2 : r ∈ g.2 → r ∈ log ∨ r.URL ≠ editURL mwURI := by
    intro h
    rcases hg h with h | h
    · exact Or.inl h
    · right; rw [h]; exact edit_ne_token _ _
  have key : ∀ (x : Outcome (Bool × Option (List Cookie) × Option Error))
      (l1 : List Request) (q : Request),
      (r ∈ l1 → r ∈ log ∨ r.URL ≠ editURL mwURI) → q.URL = mwURI ++ "/api.php" →
      r ∈ (x, l1 ++ [q]).2 → r ∈ log ∨ r.URL ≠ editURL mwURI := by
    intro x l1 q h1 hq hm
    rcases List.mem_append.1 hm with h | h
    · exact h1 h
    · right; rw [List.mem_singleton.1 h, hq]; exact edit_ne_login _
  unfold loginRequest newRequest
  dsimp only
  intro hr
  split at hr
  · exact hg2 hr
  · exact hg2 hr
  · by_cases hv : env.validURL (mwURI ++ "/api.php") = true
    · simp only [hv, if_true] at hr
      repeat' split at hr
      all_goals first
        | exact key _ _ _ hg2 rfl hr
        | (rw [loginResult_log] at hr; exact key Outcome.panic _ _ hg2 rfl hr)
    · simp only [hv] at hr
      exact hg2 hr

/-- The requests of `fetchSections`: none of them is an edit request. -/
theorem fetchSections_log (env : Env) (log : List Request) (mwURI title : String)
    (r : Request) (hr : r ∈ (fetchSections env log mwURI title).2) :
    r ∈ log ∨ r.URL ≠ editURL mwURI := by
  revert hr
  unfold fetchSections newRequest
  dsimp only
  have key : ∀ (x : Except Error (List Section)) (q : Request),
      q.URL = mwURI ++ "/api.php?action=parse&format=json&page=" ++ title ++ "&prop=sections" →
      r ∈ (x, log ++ [q]).2 → r ∈ log ∨ r.URL ≠ editURL mwURI := by
    intro x q hq hm
    rcases List.mem_append.1 hm with h | h
    · exact Or.inl h
    · right; rw [List.mem_singleton.1 h, hq]; exact edit_ne_parse _ _
  by_cases hv : env.validURL
      (mwURI ++ "/api.php?action=parse&format=json&page=" ++ title ++ "&prop=sections") = true
  · simp only [hv, if_true]
    intro hr
    repeat' split at hr
    all_goals exact key _ _ rfl hr
  · simp only [hv]
    intro hr
    exact Or.inl hr

/-- The requests of `submitEdit`: a token request, then at most one edit
request, which is `editRequest` for some token. -/
theorem submitEdit_log (env : Env) (log : List Request)
    (mwURI title markup contentModel sectionTitle sectionIndex : String)
    (cookies : Option (List Cookie)) (r : Request)
    (hr : r ∈ (submitEdit env log mwURI title markup contentModel sectionTitle sectionIndex
      cookies).2) :
    r ∈ log ∨ r.URL ≠ editURL mwURI ∨
      ∃ csrfToken, r = editRequest mwURI title markup contentModel sectionTitle sectionIndex
        csrfToken cookies := by
  revert hr
  unfold submitEdit
  have hg := GetToken_log env log mwURI "csrf" cookies r
  generalize GetToken env log mwURI "csrf" cookies = g at hg ⊢
  have hg2 : r ∈ g.2 → r ∈ log ∨ r.URL ≠ editURL mwURI ∨
      ∃ csrfToken, r = editRequest mwURI title markup contentModel sectionTitle sectionIndex
        csrfToken cookies := by
    intro h
    rcases hg h with h | h
    · exact Or.inl h
    · right; left; rw [h]; exact edit_ne_token _ _
  intro hr
  split at hr
  · exact hg2 hr
  · dsimp only at hr
    split at hr
    · split at hr
      all_goals
        rcases List.mem_append.1 hr with h | h
        · exact hg2 h
        · exact Or.inr (Or.inr ⟨_, List.mem_singleton.1 h⟩)
    · exact hg2 hr

/-- Exactly one entry matches: the section reference is its index. -/
theorem sectionIndexOf_single (sections : List Section) (s : Section) (sectionTitle : String)
    (h : sections.filter (fun x => x.Level = "2" ∧ x.Line = sectionTitle) = [s]) :
    sectionIndexOf sections sectionTitle = s.Index := by
  unfold sectionIndexOf
  rw [foldl_scan, h]
  rfl

/-- The edit request of a run of `UpdatePage` is `editRequest` at the section
reference and the markup computed from the decoded section list. -/
theorem UpdatePage_edit_request (env : Env) (log : List Request)
    (mwURI title markup contentModel loginName loginPass sectionTitle : String)
    (sections : List Section)
    (hsec : (fetchSections env log mwURI title).1 = Except.ok sections)
    (r : Request)
    (hr : r ∈ (UpdatePage env log mwURI title markup contentModel loginName loginPass
      sectionTitle).2)
    (hnew : r ∉ log) (hedit : r.URL = editURL mwURI) :
    ∃ csrfToken cookies, r = editRequest mwURI title
      (headedMarkup (sectionIndexOf sections sectionTitle) sectionTitle markup) contentModel
      sectionTitle (sectionIndexOf sections sectionTitle) csrfToken cookies := by
  have hf := fetchSections_log env log mwURI title r
  revert hr
  unfold UpdatePage
  revert hsec hf
  generalize fetchSections env log mwURI title = f
  obtain ⟨f1, log0⟩ := f
  intro hsec hf
  simp only at hsec
  subst hsec
  simp only
  have h0 : r ∉ log0 := by
    intro h
    rcases hf h with h1 | h1
    · exact hnew h1
    · exact h1 hedit
  have hl := Login_log env log0 mwURI loginName loginPass r
  generalize Login env log0 mwURI loginName loginPass = l at hl ⊢
  have h1 : r ∉ l.2 := by
    intro h
    rcases hl h with h2 | h2
    · exact h0 h2
    · exact h2 hedit
  intro hr
  split at hr
  · exact absurd hr h1
  · exact absurd hr h1
  · exact absurd hr h1
  · rcases submitEdit_log _ _ _ _ _ _ _ _ _ _ hr with h | h | ⟨tok, h⟩
    · exact absurd h h1
    · exact absurd hedit h
    · exact ⟨tok, _, h⟩

/-- Reading the `section` field of the form data of the edit request. -/
theorem editValues_section (title sectionIndex sectionTitle markup contentModel csrfToken : String) :
    valuesGet (editValues title sectionIndex sectionTitle markup contentModel csrfToken)
      "section" = sectionIndex := by
  simp [editValues, valuesSet, valuesGet, List.lookup]

/-- Reading the `text` field of the form data of the edit request. -/
theorem editValues_text (title sectionIndex sectionTitle markup contentModel csrfToken : String) :
    valuesGet (editValues title sectionIndex sectionTitle markup contentModel csrfToken)
      "text" = markup := by
  simp [editValues, valuesSet, valuesGet, List.lookup]

/-! ## C1: the section reference -/

/-- C1. Whatever section list the page request decodes to, the `section` field
of every edit request that `UpdatePage` hands to the client is `"new"` when no
entry has level `"2"` and line equal to the section title, and otherwise the
index of the last entry, in list order, that has level `"2"` and that line. -/
theorem UpdatePage_section_reference (env : Env) (log : List Request)
    (mwURI title markup contentModel loginName loginPass sectionTitle : String)
    (sections : List Section)
    (hsec : (fetchSections env log mwURI title).1 = Except.ok sections)
    (r : Request)
    (hr : r ∈ (UpdatePage env log mwURI title markup contentModel loginName loginPass
      sectionTitle).2)
    (hnew : r ∉ log) (hedit : r.URL = editURL mwURI) :
    ∃ v, r.Body = ReqBody.form v ∧
      ((∀ s ∈ sections, ¬ (s.Level = "2" ∧ s.Line = sectionTitle)) →
        valuesGet v "section" = "new") ∧
      (∀ (before after : List Section) (s : Section), sections = before ++ s :: after →
        s.Level = "2" → s.Line = sectionTitle →
        (∀ x ∈ after, ¬ (x.Level = "2" ∧ x.Line = sectionTitle)) →
        valuesGet v "section" = s.Index) := by
  obtain ⟨tok, cookies, h⟩ := UpdatePage_edit_request env log mwURI title markup contentModel
    loginName loginPass sectionTitle sections hsec r hr hnew hedit
  refine ⟨_, by rw [h]; rfl, ?_, ?_⟩
  · intro hnone
    rw [editValues_section]
    exact sectionIndexOf_none sections sectionTitle hnone
  · intro before after s hs hl ht hafter
    rw [editValues_section, hs]
    exact sectionIndexOf_last before after s sectionTitle hl ht hafter

/-- C1, on a page whose sections are `presentSections`: the edit request is
handed to the client and its `section` field is "3", the index of the level-2
entry, not "1", that of the level-1 entry with the same line. -/
theorem UpdatePage_section_reference_witness :
    (fetchSections envPresent [] "http://w" "User:Ihar").1 = Except.ok presentSections ∧
    presentEdit ∈ (UpdatePage envPresent [] "http://w" "User:Ihar" "hello" "wikitext" "bot"
      "pw" "Publications").2 ∧
    presentEdit ∉ ([] : List Request) ∧
    presentEdit.URL = editURL "http://w" ∧
    ∃ v, presentEdit.Body = ReqBody.form v ∧
      ((∀ s ∈ presentSections, ¬ (s.Level = "2" ∧ s.Line = "Publications")) →
        valuesGet v "section" = "new") ∧
      (∀ (before after : List Section) (s : Section), presentSections = before ++ s :: after →
        s.Level = "2" → s.Line = "Publications" →
        (∀ x ∈ after, ¬ (x.Level = "2" ∧ x.Line = "Publications")) →
        valuesGet v "section" = s.Index) :=
  ⟨rfl, by decide, by simp, rfl,
    UpdatePage_section_reference envPresent [] "http://w" "User:Ihar" "hello" "wikitext" "bot"
      "pw" "Publications" presentSections rfl presentEdit (by decide) (by simp) rfl⟩

/-! ## C2: the submitted text -/

/-- Where the section reference is not the index string "new" of a matching
entry, the `text` field of every edit request that `UpdatePage` hands to the
client is the markup verbatim when no entry has level `"2"` and line equal to
the section title, and the heading followed by the markup when exactly one
entry has and its index string is not `"new"`. -/
theorem UpdatePage_text_off_sentinel (env : Env) (log : List Request)
    (mwURI title markup contentModel loginName loginPass sectionTitle : String)
    (sections : List Section)
    (hsec : (fetchSections env log mwURI title).1 = Except.ok sections)
    (r : Request)
    (hr : r ∈ (UpdatePage env log mwURI title markup contentModel loginName loginPass
      sectionTitle).2)
    (hnew : r ∉ log) (hedit : r.URL = editURL mwURI) :
    ∃ v, r.Body = ReqBody.form v ∧
      ((∀ s ∈ sections, ¬ (s.Level = "2" ∧ s.Line = sectionTitle)) →
        valuesGet v "text" = markup) ∧
      (∀ s : Section,
        sections.filter (fun x => x.Level = "2" ∧ x.Line = sectionTitle) = [s] →
        s.Index ≠ "new" →
        valuesGet v "text" = "== " ++ sectionTitle ++ " ==\n\n" ++ markup) := by
  obtain ⟨tok, cookies, h⟩ := UpdatePage_edit_request env log mwURI title markup contentModel
    loginName loginPass sectionTitle sections hsec r hr hnew hedit
  refine ⟨_, by rw [h]; rfl, ?_, ?_⟩
  · intro hnone
    rw [editValues_text, sectionIndexOf_none sections sectionTitle hnone]
    rfl
  · intro s hs hne
    rw [editValues_text, sectionIndexOf_single sections s sectionTitle hs]
    unfold headedMarkup
    rw [if_pos hne]

/-- C2 fails on the code. The page has exactly one level-2 section with the
line "Publications" and its index string is "new": the section exists, the
claim and the comment of line 41 want the heading put before the markup, and
the guard of line 42, which tests the section reference against the sentinel
"new", lets the markup through without it. The edit request handed to the
client has `section` equal to "new" and `text` equal to the markup alone. -/
theorem UpdatePage_text_sentinel_collision :
    (fetchSections envSentinel [] "http://w" "User:Ihar").1
      = Except.ok [⟨"2", "Publications", "new"⟩] ∧
    ([⟨"2", "Publications", "new"⟩].filter
      (fun x : Section => x.Level = "2" ∧ x.Line = "Publications")).length = 1 ∧
    (UpdatePage envSentinel [] "http://w" "User:Ihar" "hello" "wikitext" "bot" "pw"
      "Publications").2.getLast? = some sentinelEdit ∧
    sentinelEdit.URL = editURL "http://w" ∧
    sentinelEdit.Body = ReqBody.form (editValues "User:Ihar" "new" "Publications" "hello"
      "wikitext" "ct") ∧
    valuesGet (editValues "User:Ihar" "new" "Publications" "hello" "wikitext" "ct") "section"
      = "new" ∧
    valuesGet (editValues "User:Ihar" "new" "Publications" "hello" "wikitext" "ct") "text"
      = "hello" ∧
    "hello" ≠ "== " ++ "Publications" ++ " ==\n\n" ++ "hello" := by
  refine ⟨rfl, by decide, by decide, rfl, rfl, by decide, by decide, by decide⟩

/-! ## The edit response -/

/-- A run of `UpdatePage` that gets a response to its edit request returns
what `editResult` reads from that response. -/
theorem UpdatePage_reaches_edit (env : Env) (log : List Request)
    (mwURI title markup contentModel loginName loginPass sectionTitle : String)
    (sections : List Section) (log0 log1 log2 : List Request)
    (cookies c : Option (List Cookie)) (csrfToken : String) (e : Option Error)
    (resp : Response)
    (hsec : fetchSections env log mwURI title = (Except.ok sections, log0))
    (hlogin : Login env log0 mwURI loginName loginPass
      = (Outcome.ret (true, cookies, none), log1))
    (htok : GetToken env log1 mwURI "csrf" cookies = (Outcome.ret (csrfToken, c, e), log2))
    (hurl : env.validURL (editURL mwURI) = true)
    (hresp : env.roundTrip log2 (editRequest mwURI title
      (headedMarkup (sectionIndexOf sections sectionTitle) sectionTitle markup) contentModel
      sectionTitle (sectionIndexOf sections sectionTitle) csrfToken cookies)
      = Except.ok resp) :
    UpdatePage env log mwURI title markup contentModel loginName loginPass sectionTitle
      = (Outcome.ret (editResult resp), log2 ++ [editRequest mwURI title
          (headedMarkup (sectionIndexOf sections sectionTitle) sectionTitle markup)
          contentModel sectionTitle (sectionIndexOf sections sectionTitle) csrfToken
          cookies]) := by
  unfold UpdatePage
  rw [hsec]
  simp only
  rw [hlogin]
  simp only
  unfold submitEdit
  rw [htok]
  simp only [hurl, if_true]
  rw [hresp]

/-- A status above 200 makes `editResult` fail, whatever the body. -/
theorem editResult_bad_status (resp : Response) (h : resp.StatusCode > 200) :
    editResult resp = (false, some "bad HTTP status") := by
  unfold editResult
  rw [if_pos h]

/-- The reading of a decoded edit response: success when it has no non-empty
top-level `error` string and has an `edit` object whose `result` is not a
string other than "Success"; failure with an error otherwise. -/
theorem editResult_decoded (resp : Response) (data : JMap)
    (hstatus : resp.StatusCode ≤ 200) (hdata : resp.Body.asMap = some data) :
    (((∀ s, assertString (mapIndex data "error") = some s → s.length = 0) ∧
      ∃ editData, assertMap (mapIndex data "edit") = some editData ∧
        ∀ s, assertString (mapIndex editData "result") = some s → s = "Success") →
      editResult resp = (true, none)) ∧
    (¬ ((∀ s, assertString (mapIndex data "error") = some s → s.length = 0) ∧
      ∃ editData, assertMap (mapIndex data "edit") = some editData ∧
        ∀ s, assertString (mapIndex editData "result") = some s → s = "Success") →
      ∃ err, editResult resp = (false, some err)) := by
  unfold editResult
  rw [if_neg (Nat.not_lt.2 hstatus), hdata]
  simp only
  cases he : assertString (mapIndex data "error") with
  | some s =>
    by_cases hs : s.length > 0
    · simp [hs]
      omega
    · have hs0 : s.length = 0 := by omega
      cases hm : assertMap (mapIndex data "edit") with
      | none => simp [hs]
      | some editData =>
        cases hr : assertString (mapIndex editData "result") with
        | none => simp [hs, hs0, hr]
        | some t =>
          by_cases ht : t = "Success"
          · simp [hs, hs0, hr, ht]
          · simp [hs, hs0, hr, ht]
  | none =>
    cases hm : assertMap (mapIndex data "edit") with
    | none => simp
    | some editData =>
      cases hr : assertString (mapIndex editData "result") with
      | none => simp [hr]
      | some t =>
        by_cases ht : t = "Success"
        · simp [hr, ht]
        · simp [hr, ht]

/-! ## C3: the reading of the edit response -/

/-- C3, as amended. In a run of `UpdatePage` whose edit request gets a
response that is decoded (status at most 200, body a JSON object `data`),
`UpdatePage` returns `(true, nil)` exactly when `data` has no non-empty
top-level `error` string and has an `edit` object whose `result` is not a
string other than "Success" (it is "Success", absent, or not a string); on
every other decoded response it returns `(false, err)` with `err` not nil. -/
theorem UpdatePage_edit_response (env : Env) (log : List Request)
    (mwURI title markup contentModel loginName loginPass sectionTitle : String)
    (sections : List Section) (log0 log1 log2 : List Request)
    (cookies c : Option (List Cookie)) (csrfToken : String) (e : Option Error)
    (resp : Response) (data : JMap)
    (hsec : fetchSections env log mwURI title = (Except.ok sections, log0))
    (hlogin : Login env log0 mwURI loginName loginPass
      = (Outcome.ret (true, cookies, none), log1))
    (htok : GetToken env log1 mwURI "csrf" cookies = (Outcome.ret (csrfToken, c, e), log2))
    (hurl : env.validURL (editURL mwURI) = true)
    (hresp : env.roundTrip log2 (editRequest mwURI title
      (headedMarkup (sectionIndexOf sections sectionTitle) sectionTitle markup) contentModel
      sectionTitle (sectionIndexOf sections sectionTitle) csrfToken cookies)
      = Except.ok resp)
    (hstatus : resp.StatusCode ≤ 200) (hdata : resp.Body.asMap = some data) :
    ((UpdatePage env log mwURI title markup contentModel loginName loginPass sectionTitle).1
        = Outcome.ret (true, none) ↔
      ((∀ s, assertString (mapIndex data "error") = some s → s.length = 0) ∧
        ∃ editData, assertMap (mapIndex data "edit") = some editData ∧
          ∀ s, assertString (mapIndex editData "result") = some s → s = "Success")) ∧
    (¬ ((∀ s, assertString (mapIndex data "error") = some s → s.length = 0) ∧
        ∃ editData, assertMap (mapIndex data "edit") = some editData ∧
          ∀ s, assertString (mapIndex editData "result") = some s → s = "Success") →
      ∃ err, (UpdatePage env log mwURI title markup contentModel loginName loginPass
        sectionTitle).1 = Outcome.ret (false, some err)) := by
  rw [UpdatePage_reaches_edit env log mwURI title markup contentModel loginName loginPass
    sectionTitle sections log0 log1 log2 cookies c csrfToken e resp hsec hlogin htok hurl hresp]
  obtain ⟨h1, h2⟩ := editResult_decoded resp data hstatus hdata
  refine ⟨⟨?_, ?_⟩, ?_⟩
  · intro h
    by_contra hn
    obtain ⟨err, he⟩ := h2 hn
    simp only [he] at h
    exact absurd h (by simp)
  · intro h
    simp only [h1 h]
  · intro hn
    obtain ⟨err, he⟩ := h2 hn
    exact ⟨err, by simp only [he]⟩

/-- C3 as amended, on the run in `envPresent`, whose edit request is answered
`{"edit":{"result":"Success"}}`. -/
theorem UpdatePage_edit_response_witness :
    ((UpdatePage envPresent [] "http://w" "User:Ihar" "hello" "wikitext" "bot" "pw"
        "Publications").1 = Outcome.ret (true, none) ↔
      ((∀ s, assertString (mapIndex [("edit", Value.obj [("result", Value.str "Success")])]
          "error") = some s → s.length = 0) ∧
        ∃ editData, assertMap (mapIndex [("edit", Value.obj [("result", Value.str "Success")])]
          "edit") = some editData ∧
          ∀ s, assertString (mapIndex editData "result") = some s → s = "Success")) ∧
    (¬ ((∀ s, assertString (mapIndex [("edit", Value.obj [("result", Value.str "Success")])]
          "error") = some s → s.length = 0) ∧
        ∃ editData, assertMap (mapIndex [("edit", Value.obj [("result", Value.str "Success")])]
          "edit") = some editData ∧
          ∀ s, assertString (mapIndex editData "result") = some s → s = "Success") →
      ∃ err, (UpdatePage envPresent [] "http://w" "User:Ihar" "hello" "wikitext" "bot" "pw"
        "Publications").1 = Outcome.ret (false, some err)) :=
  UpdatePage_edit_response envPresent [] "http://w" "User:Ihar" "hello" "wikitext" "bot" "pw"
    "Publications" presentSections _ _ _ (some [sessionCookie]) _ "ct" _ editSuccess
    [("edit", Value.obj [("result", Value.str "Success")])] rfl rfl rfl rfl rfl (by decide) rfl

/-- C3 as stated fails: the edit request is answered `{"edit":{}}`, an `edit`
object whose `result` is absent, and `UpdatePage` returns `(true, nil)`. -/
theorem UpdatePage_edit_response_counterexample :
    (UpdatePage envBareEdit [] "http://w" "User:Ihar" "hello" "wikitext" "bot" "pw"
      "Publications").2.getLast? = some presentEdit ∧
    envBareEdit.roundTrip (UpdatePage envBareEdit [] "http://w" "User:Ihar" "hello" "wikitext"
      "bot" "pw" "Publications").2.dropLast presentEdit = Except.ok bareEditResponse ∧
    bareEditResponse.Body.asMap = some [("edit", Value.obj [])] ∧
    assertString (mapIndex [] "result") = none ∧
    (UpdatePage envBareEdit [] "http://w" "User:Ihar" "hello" "wikitext" "bot" "pw"
      "Publications").1 = Outcome.ret (true, none) :=
  ⟨by decide, rfl, rfl, rfl, by decide⟩

/-! ## C4: the error of the CSRF token request -/

/-- C4 fails on the code. In the run of `envNoCsrf` the login succeeds and the
CSRF token request is answered `{}`, so `GetToken` returns an error; the edit
request is handed to the client all the same, with an empty `token` field,
and `UpdatePage` returns `(true, nil)` when it is answered with success. -/
theorem UpdatePage_ignores_csrf_error :
    (Login envNoCsrf (fetchSections envNoCsrf [] "http://w" "User:Ihar").2 "http://w" "bot"
      "pw").1 = Outcome.ret (true, some [sessionCookie], none) ∧
    (GetToken envNoCsrf
      (Login envNoCsrf (fetchSections envNoCsrf [] "http://w" "User:Ihar").2 "http://w" "bot"
        "pw").2 "http://w" "csrf" (some [sessionCookie])).1
      = Outcome.ret ("", none, some "GetToken: query type error") ∧
    (UpdatePage envNoCsrf [] "http://w" "User:Ihar" "hello" "wikitext" "bot" "pw"
      "Publications").2.getLast? = some tokenlessEdit ∧
    tokenlessEdit.URL = "http://w/api.php?action=edit&format=json" ∧
    tokenlessEdit.Body = ReqBody.form (editValues "User:Ihar" "3" "Publications"
      "== Publications ==\n\nhello" "wikitext" "") ∧
    (UpdatePage envNoCsrf [] "http://w" "User:Ihar" "hello" "wikitext" "bot" "pw"
      "Publications").1 = Outcome.ret (true, none) :=
  ⟨by decide, by decide, by decide, by decide, rfl, by decide⟩

/-! ## The results of GetToken and Login, when they return -/

/-- When `GetToken` returns, it returns either a non-empty token of a
recognised kind with cookies and a nil error, or an error with an empty token
and nil cookies. -/
theorem GetToken_shape (env : Env) (log : List Request) (mwURI tokenType : String)
    (cookies : Option (List Cookie)) (token : String) (c : Option (List Cookie))
    (e : Option Error)
    (h : (GetToken env log mwURI tokenType cookies).1 = Outcome.ret (token, c, e)) :
    (e = none ∧ token.length ≠ 0 ∧ c ≠ none ∧
      (tokenType = "login" ∨ tokenType = "csrf" ∨ tokenType = "userrights")) ∨
    (e ≠ none ∧ token = "" ∧ c = none) := by
  revert h
  unfold GetToken
  intro h
  repeat' split at h
  all_goals try dsimp only at h
  all_goals repeat' split at h
  all_goals first
    | (simp only [Outcome.ret.injEq, Prod.mk.injEq] at h
       obtain ⟨rfl, rfl, rfl⟩ := h
       simp_all)
    | simp at h

/-- When `Login` returns, it returns either `(true, cookies, nil)` with
cookies that are not nil, or `(false, nil, err)` with `err` not nil. -/
theorem Login_shape (env : Env) (log : List Request) (mwURI name pass : String)
    (ok : Bool) (c : Option (List Cookie)) (e : Option Error)
    (h : (Login env log mwURI name pass).1 = Outcome.ret (ok, c, e)) :
    (ok = true ∧ c ≠ none ∧ e = none) ∨ (ok = false ∧ c = none ∧ e ≠ none) := by
  revert h
  unfold Login loginResult
  intro h
  repeat' split at h
  all_goals first
    | (simp only [Outcome.ret.injEq, Prod.mk.injEq] at h
       obtain ⟨rfl, rfl, rfl⟩ := h
       simp_all)
    | simp at h

/-! ## C5: the reading of the login response -/

/-- A run of `Login` that gets a decoded response without a non-empty
top-level `error` string returns what `loginResult` reads from it. -/
theorem Login_reaches_result (env : Env) (log : List Request) (mwURI name pass : String)
    (token : String) (cookies : Option (List Cookie)) (log1 : List Request) (req : Request)
    (resp : Response) (data : JMap)
    (htok : GetToken env log mwURI "login" none = (Outcome.ret (token, cookies, none), log1))
    (hreq : loginRequest env mwURI name pass token cookies = Except.ok req)
    (hresp : env.roundTrip log1 req = Except.ok resp)
    (hdata : resp.Body.asMap = some data)
    (herr : ∀ s, assertString (mapIndex data "error") = some s → s.length = 0) :
    Login env log mwURI name pass = loginResult data resp (log1 ++ [req]) := by
  unfold Login
  rw [htok]
  simp only
  rw [hreq]
  simp only
  rw [hresp]
  simp only
  rw [hdata]
  simp only
  cases he : assertString (mapIndex data "error") with
  | none => rfl
  | some s =>
    have h0 := herr s he
    simp [h0]

/-- C5, as amended. On a decoded login response that has no non-empty
top-level `error` string and has a `login` object, `Login` returns ok = true
exactly when `login.result` is not a string other than "Success" (it is
"Success", absent, or not a string); a `login.result` string other than
"Success" makes it return `(false, nil, err)` with `err` not nil. -/
theorem Login_result (env : Env) (log : List Request) (mwURI name pass : String)
    (token : String) (cookies : Option (List Cookie)) (log1 : List Request) (req : Request)
    (resp : Response) (data loginData : JMap)
    (htok : GetToken env log mwURI "login" none = (Outcome.ret (token, cookies, none), log1))
    (hreq : loginRequest env mwURI name pass token cookies = Except.ok req)
    (hresp : env.roundTrip log1 req = Except.ok resp)
    (hdata : resp.Body.asMap = some data)
    (herr : ∀ s, assertString (mapIndex data "error") = some s → s.length = 0)
    (hlogin : assertMap (mapIndex data "login") = some loginData) :
    ((∃ c e, (Login env log mwURI name pass).1 = Outcome.ret (true, c, e)) ↔
      ∀ s, assertString (mapIndex loginData "result") = some s → s = "Success") ∧
    ((∀ s, assertString (mapIndex loginData "result") = some s → s = "Success") →
      (Login env log mwURI name pass).1 = Outcome.ret (true, some resp.Cookies, none)) ∧
    (∀ s, assertString (mapIndex loginData "result") = some s → s ≠ "Success" →
      ∃ err, (Login env log mwURI name pass).1 = Outcome.ret (false, none, some err)) := by
  rw [Login_reaches_result env log mwURI name pass token cookies log1 req resp data htok hreq
    hresp hdata herr]
  unfold loginResult
  rw [hlogin]
  simp only
  cases hr : assertString (mapIndex loginData "result") with
  | none => simp
  | some t =>
    by_cases ht : t = "Success"
    · simp [ht]
    · simp [ht]

/-- C5 as amended, on a login whose credential request is answered
`{"login":{"result":"Failed"}}`. -/
theorem Login_result_witness :
    ((∃ c e, (Login envLoginRejected [] "http://w" "bot" "pw").1 = Outcome.ret (true, c, e)) ↔
      ∀ s, assertString (mapIndex [("result", Value.str "Failed")] "result") = some s →
        s = "Success") ∧
    ((∀ s, assertString (mapIndex [("result", Value.str "Failed")] "result") = some s →
        s = "Success") →
      (Login envLoginRejected [] "http://w" "bot" "pw").1
        = Outcome.ret (true, some [sessionCookie], none)) ∧
    (∀ s, assertString (mapIndex [("result", Value.str "Failed")] "result") = some s →
      s ≠ "Success" →
      ∃ err, (Login envLoginRejected [] "http://w" "bot" "pw").1
        = Outcome.ret (false, none, some err)) :=
  Login_result envLoginRejected [] "http://w" "bot" "pw" "lt" (some [sessionCookie]) _
    credentialRequest
    ⟨200, [sessionCookie], jsonBody [("login", Value.obj [("result", Value.str "Failed")])]⟩
    [("login", Value.obj [("result", Value.str "Failed")])] [("result", Value.str "Failed")]
    rfl rfl rfl rfl (by simp [mapIndex, List.lookup, assertString]) rfl

/-- C5 as stated fails: the credential request is answered `{"login":{}}`, no
top-level `error`, `login.result` absent, and `Login` returns ok = true with
the cookies of the response and a nil error. -/
theorem Login_result_counterexample :
    (Login envLoginBare [] "http://w" "bot" "pw").2.getLast? = some credentialRequest ∧
    envLoginBare.roundTrip (Login envLoginBare [] "http://w" "bot" "pw").2.dropLast
      credentialRequest = Except.ok bareLoginResponse ∧
    bareLoginResponse.Body.asMap = some [("login", Value.obj [])] ∧
    assertString (mapIndex [("login", Value.obj [])] "error") = none ∧
    assertString (mapIndex [] "result") = none ∧
    (Login envLoginBare [] "http://w" "bot" "pw").1
      = Outcome.ret (true, some [sessionCookie], none) :=
  ⟨by decide, rfl, rfl, rfl, rfl, by decide⟩

/-! ## C6: the shapes of the result of Login -/

/-- C6 fails on the code. The credential request is answered `{}`, a body
that decodes to a JSON object with no `login` object, and `Login` panics in
the type assertion of line 211 instead of returning `(false, nil, err)`. -/
theorem Login_panics_without_login_object :
    (Login envLoginAbsent [] "http://w" "bot" "pw").2.getLast? = some credentialRequest ∧
    envLoginAbsent.roundTrip (Login envLoginAbsent [] "http://w" "bot" "pw").2.dropLast
      credentialRequest = Except.ok ⟨200, [sessionCookie], jsonBody []⟩ ∧
    (jsonBody []).asMap = some [] ∧
    (Login envLoginAbsent [] "http://w" "bot" "pw").1 = Outcome.panic :=
  ⟨by decide, rfl, rfl, by decide⟩

/-! ## C7: the result of GetToken -/

/-- C7 fails on the code. The kind is "login" and the token request is
answered `{"query":{"tokens":{}}}`: `query` and `query.tokens` are objects
and `logintoken` is missing; `GetToken` panics in the type assertion of line
146 instead of returning an error with an empty token and nil cookies. -/
theorem GetToken_panics_without_token :
    envTokenAbsent.roundTrip [] ⟨"POST",
      "http://w/api.php?action=query&format=json&meta=tokens&type=login", [], ReqBody.empty⟩
      = Except.ok ⟨200, [], jsonBody [("query", Value.obj [("tokens", Value.obj [])])]⟩ ∧
    assertMap (mapIndex [("query", Value.obj [("tokens", Value.obj [])])] "query")
      = some [("tokens", Value.obj [])] ∧
    assertMap (mapIndex [("tokens", Value.obj [])] "tokens") = some [] ∧
    (GetToken envTokenAbsent [] "http://w" "login" none).1 = Outcome.panic :=
  ⟨rfl, rfl, rfl, by decide⟩

/-! ## C8: the status check -/

/-- C8. Whenever the client returns a response with a status above 200, `Get`
and `Post` return `(nil, err)` with `err` not nil, and `UpdatePage`, when the
response is that to its edit request, returns `(false, err)` with `err` not
nil, whatever the body; when the status is at most 200 and the body is a JSON
object, `Get` and `Post` return the decoded mapping and a nil error. -/
theorem status_check (env : Env) (log : List Request) (mwURI : String) :
    (∀ (params : String) (req : Request) (resp : Response),
      getRequest env mwURI params = Except.ok req → env.roundTrip log req = Except.ok resp →
      (resp.StatusCode > 200 → ∃ err, (Get env log mwURI params).1 = (none, some err)) ∧
      (resp.StatusCode ≤ 200 → ∀ data, resp.Body.asMap = some data →
        (Get env log mwURI params).1 = (some data, none))) ∧
    (∀ (body : String) (loginCookies : Option (List Cookie)) (req : Request) (resp : Response),
      postRequest env mwURI body loginCookies = Except.ok req →
      env.roundTrip log req = Except.ok resp →
      (resp.StatusCode > 200 →
        ∃ err, (Post env log mwURI body loginCookies).1 = (none, some err)) ∧
      (resp.StatusCode ≤ 200 → ∀ data, resp.Body.asMap = some data →
        (Post env log mwURI body loginCookies).1 = (some data, none))) ∧
    (∀ (title markup contentModel loginName loginPass sectionTitle : String)
      (sections : List Section) (log0 log1 log2 : List Request)
      (cookies c : Option (List Cookie)) (csrfToken : String) (e : Option Error)
      (resp : Response),
      fetchSections env log mwURI title = (Except.ok sections, log0) →
      Login env log0 mwURI loginName loginPass = (Outcome.ret (true, cookies, none), log1) →
      GetToken env log1 mwURI "csrf" cookies = (Outcome.ret (csrfToken, c, e), log2) →
      env.validURL (editURL mwURI) = true →
      env.roundTrip log2 (editRequest mwURI title
        (headedMarkup (sectionIndexOf sections sectionTitle) sectionTitle markup) contentModel
        sectionTitle (sectionIndexOf sections sectionTitle) csrfToken cookies)
        = Except.ok resp →
      resp.StatusCode > 200 →
      ∃ err, (UpdatePage env log mwURI title markup contentModel loginName loginPass
        sectionTitle).1 = Outcome.ret (false, some err)) := by
  refine ⟨?_, ?_, ?_⟩
  · intro params req resp hreq hresp
    unfold Get
    rw [hreq]
    simp only
    rw [hresp]
    simp only
    constructor
    · intro h
      rw [if_pos h]
      exact ⟨_, rfl⟩
    · intro h data hdata
      rw [if_neg (Nat.not_lt.2 h), hdata]
  · intro body loginCookies req resp hreq hresp
    unfold Post
    rw [hreq]
    simp only
    rw [hresp]
    simp only
    constructor
    · intro h
      rw [if_pos h]
      exact ⟨_, rfl⟩
    · intro h data hdata
      rw [if_neg (Nat.not_lt.2 h), hdata]
  · intro title markup contentModel loginName loginPass sectionTitle sections log0 log1 log2
      cookies c csrfToken e resp hsec hlogin htok hurl hresp hstatus
    rw [UpdatePage_reaches_edit env log mwURI title markup contentModel loginName loginPass
      sectionTitle sections log0 log1 log2 cookies c csrfToken e resp hsec hlogin htok hurl
      hresp, editResult_bad_status resp hstatus]
    exact ⟨_, rfl⟩

/-- C8 on single requests answered with the statuses 201, 204 and 200, and on
the run of `envCreated`, whose edit request is answered with status 201 and
the body `{"edit":{"result":"Success"}}`. -/
theorem status_check_witness :
    (∃ err, (Get (envStatus 201) [] "http://w" "action=query").1 = (none, some err)) ∧
    (Get (envStatus 200) [] "http://w" "action=query").1
      = (some [("batchcomplete", Value.str "")], none) ∧
    (∃ err, (Post (envStatus 204) [] "http://w" "action=query" (some [sessionCookie])).1
      = (none, some err)) ∧
    (Post (envStatus 200) [] "http://w" "action=query" (some [sessionCookie])).1
      = (some [("batchcomplete", Value.str "")], none) ∧
    (∃ err, (UpdatePage envCreated [] "http://w" "User:Ihar" "hello" "wikitext" "bot" "pw"
      "Publications").1 = Outcome.ret (false, some err)) :=
  ⟨((status_check (envStatus 201) [] "http://w").1 "action=query" _ _ rfl rfl).1 (by decide),
   ((status_check (envStatus 200) [] "http://w").1 "action=query" _ _ rfl rfl).2 (by decide)
      _ rfl,
   ((status_check (envStatus 204) [] "http://w").2.1 "action=query" (some [sessionCookie]) _ _
      rfl rfl).1 (by decide),
   ((status_check (envStatus 200) [] "http://w").2.1 "action=query" (some [sessionCookie]) _ _
      rfl rfl).2 (by decide) _ rfl,
   (status_check envCreated [] "http://w").2.2 "User:Ihar" "hello" "wikitext" "bot" "pw"
      "Publications" presentSections _ _ _ (some [sessionCookie]) _ "ct" _
      ⟨201, [], jsonBody [("edit", Value.obj [("result", Value.str "Success")])]⟩
      rfl rfl rfl rfl rfl (by decide)⟩

/-! ## C9: the count check of Purge -/

/-- C9. When the purge request gets a response that decodes, `Purge` returns
a non-nil error if and only if the number of entries of the `purge` array
differs from the number of page titles, and nil when they are equal, whatever
the `error` object of the response is. -/
theorem Purge_error_iff (env : Env) (log : List Request) (mwURI : String)
    (pageTitles : List String) (req : Request) (resp : Response) (data : PurgeData)
    (hreq : purgeRequest env mwURI pageTitles = Except.ok req)
    (hresp : env.roundTrip log req = Except.ok resp)
    (hdata : resp.Body.asPurge = some data) :
    ((Purge env log mwURI pageTitles).1 ≠ none ↔ data.Purge.length ≠ pageTitles.length) ∧
    (data.Purge.length = pageTitles.length → (Purge env log mwURI pageTitles).1 = none) := by
  unfold Purge
  rw [hreq]
  simp only
  rw [hresp]
  simp only
  rw [hdata]
  simp only
  by_cases h : data.Purge.length = pageTitles.length
  · simp [h]
  · simp [h]

/-- C9 on one title, with a response of one purged page that also carries an
`error` object: no error; and on two titles with the same response: an error. -/
theorem Purge_error_iff_witness :
    (Purge envPurge [] "http://w" ["Publications"]).1 = none ∧
    (Purge envPurge [] "http://w" ["Publications", "Notes"]).1 ≠ none :=
  ⟨(Purge_error_iff envPurge [] "http://w" ["Publications"] _ _
      ⟨[⟨0, "", "Publications"⟩], some [("code", Value.str "readonly")]⟩ rfl rfl rfl).2
      (by decide),
   (Purge_error_iff envPurge [] "http://w" ["Publications", "Notes"] _ _
      ⟨[⟨0, "", "Publications"⟩], some [("code", Value.str "readonly")]⟩ rfl rfl rfl).1.2
      (by decide)⟩

/-! ## C10: the Cookie header -/

/-- C10 fails on the code. On two cookies that carry attributes, as cookies
parsed from a response do, `joinCookies` returns their serialisations with
the attributes, not the `name=value` pairs joined by ";". -/
theorem joinCookies_keeps_attributes :
    joinCookies [sessionCookie, secureCookie] = "sid=abc; Path=/; HttpOnly;tok=xyz; Secure" ∧
    joinCookies [sessionCookie, secureCookie] ≠ "sid=abc;tok=xyz" ∧
    joinCookies [] = "" :=
  ⟨by decide, by decide, by decide⟩

end Mediawiki
